import Mathlib

/-!
Shallow embedding of the media capture orchestration layer of the
livekit-gstreamer repository (files `src/media_device.rs`,
`src/media_stream.rs`, `src/lk_participant.rs`), together with theorems
settling the specification claims about it.

Modelling conventions:
* Rust `i32` fields are modelled as `Int` (no claim touches overflow).
* Fallible Rust code returning `Result` is modelled with `Except`.
* A Rust `unwrap()` on an `Option` that can be `None` (a panic) is modelled
  by returning `none` at the Lean level: `none` means "panics".
* The global GStreamer device monitor is passed explicitly as a list of
  backend devices.
* GStreamer graph construction is modelled by a `PipelineDesc` recording the
  element factory names in creation order and the static links between them;
  the device-provided source element is labelled "source".
-/

namespace LKGst

/-- Rust `str::contains` (substring test) on lists of characters. -/
def listContainsSub : List Char → List Char → Bool
  | _, [] => true
  | [], _ :: _ => false
  | c :: hay, n :: needle =>
    ((n :: needle).isPrefixOf (c :: hay)) || listContainsSub hay (n :: needle)

/-- Rust `str::contains`: `strContains hay needle` is true iff `needle` is a
substring of `hay`. -/
def strContains (hay needle : String) : Bool :=
  listContainsSub hay.toList needle.toList

/-- `VideoCapability` from `media_device.rs`. -/
structure VideoCapability where
  width : Int
  height : Int
  framerates : List Int
  codec : String
deriving DecidableEq, Repr

/-- `AudioCapability` from `media_device.rs`; `framerates` is the inclusive
`(min, max)` rate range. -/
structure AudioCapability where
  channels : Int
  framerates : Int × Int
  codec : String
deriving DecidableEq, Repr

/-- `MediaCapability` from `media_device.rs`. -/
inductive MediaCapability where
  | Video (c : VideoCapability)
  | Audio (c : AudioCapability)
deriving DecidableEq, Repr

/-- `GStreamerError` from `media_device.rs`. -/
inductive GStreamerError where
  | PipelineError (msg : String)
  | DeviceError (msg : String)
deriving DecidableEq, Repr

/-- The property bag of a backend GStreamer device, restricted to the keys
`get_gst_device` reads.  The outer `Option` models whether
`props.get::<Option<String>>(key)` succeeds (`Ok`) at all, the inner
`Option` is the retrieved `Option<String>` value. -/
structure DeviceProps where
  objectPath : Option (Option String)
  devicePath : Option (Option String)
deriving DecidableEq, Repr

/-- One caps structure of a backend device, with the fields
`get_device_capabilities` extracts (framerate fractions are kept as the
already-divided integers `numer / denom`). -/
structure CapStructure where
  name : String
  width : Int
  height : Int
  framerates : List Int
  channels : Int
  rate : Option (Int × Int)
deriving DecidableEq, Repr

/-- A device as listed by the global device monitor. -/
structure BackendDevice where
  props : Option DeviceProps
  deviceClass : String
  displayName : String
  caps : List CapStructure
deriving DecidableEq, Repr

/-- `get_gst_device` from `media_device.rs`: find the first monitor device
one of whose path properties (`object.path`, falling back to `device.path`)
contains `path` as a substring. -/
def get_gst_device (monitor : List BackendDevice) (path : String) :
    Option BackendDevice :=
  monitor.find? fun d =>
    match d.props with
    | some props =>
      let pathProp := match props.objectPath with
        | some v => some v
        | none => props.devicePath
      match pathProp with
      | some (some s) => strContains s path
      | some none => false
      | none => false
    | none => false

/-- `get_device_capabilities` from `media_device.rs`: video devices map every
caps structure to a `Video` capability; all other devices map every structure
to an `Audio` capability, defaulting to range `(0, 0)` and codec
`"audio/x-raw"` when no rate range is present. -/
def get_device_capabilities (d : BackendDevice) : List MediaCapability :=
  if d.deviceClass == "Video/Source" then
    d.caps.map fun s =>
      .Video { width := s.width, height := s.height,
               framerates := s.framerates, codec := s.name }
  else
    d.caps.map fun s =>
      match s.rate with
      | some r => .Audio { channels := s.channels, framerates := r, codec := s.name }
      | none => .Audio { channels := s.channels, framerates := (0, 0),
                         codec := "audio/x-raw" }

/-- `GstMediaDevice` from `media_device.rs`. -/
structure GstMediaDevice where
  display_name : String
  device_class : String
  device_path : String
deriving DecidableEq, Repr

/-- `GstMediaDevice::from_device_path`: resolves the path against the monitor
and returns a `DeviceError` when no device matches. -/
def from_device_path (monitor : List BackendDevice) (path : String) :
    Except GStreamerError GstMediaDevice :=
  match get_gst_device monitor path with
  | none => .error (.DeviceError "No device found")
  | some d =>
    .ok { display_name := d.displayName, device_class := d.deviceClass,
          device_path := path }

/-- `GstMediaDevice::capabilities`: re-resolves the device each call and
`unwrap`s the lookup — `none` models the panic when the device is no longer
enumerable. -/
def capabilitiesP (monitor : List BackendDevice) (dev : GstMediaDevice) :
    Option (List MediaCapability) :=
  (get_gst_device monitor dev.device_path).map get_device_capabilities

/-- The video capabilities of a capability list (the `filter_map` inside
`supports_video`). -/
def videoCaps (caps : List MediaCapability) : List VideoCapability :=
  caps.filterMap fun c =>
    match c with
    | .Video v => some v
    | .Audio _ => none

/-- The audio capabilities of a capability list (the `filter_map` inside
`supports_audio`). -/
def audioCaps (caps : List MediaCapability) : List AudioCapability :=
  caps.filterMap fun c =>
    match c with
    | .Video _ => none
    | .Audio a => some a

/-- The pure core of `GstMediaDevice::supports_video`, applied to the
capability list returned by `capabilities()`. -/
def supports_video_caps (device_class : String) (caps : List MediaCapability)
    (codec : String) (width height framerate : Int) : Bool :=
  if device_class == "Audio/Source" then false
  else
    (videoCaps caps).any fun c =>
      c.codec == codec && c.width == width && c.height == height &&
        c.framerates.contains framerate

/-- The pure core of `GstMediaDevice::supports_audio`, applied to the
capability list returned by `capabilities()`. -/
def supports_audio_caps (device_class : String) (caps : List MediaCapability)
    (codec : String) (channels framerate : Int) : Bool :=
  if device_class == "Video/Source" then false
  else
    (audioCaps caps).any fun c =>
      c.codec == codec && c.channels == channels &&
        decide (c.framerates.1 ≤ framerate) && decide (framerate ≤ c.framerates.2)

/-- `GstMediaDevice::supports_video` including the `capabilities()` call:
`none` models the panic when the device is gone (the code fetches the
capability list before the class check, so the panic also hits wrong-class
queries). -/
def supports_videoP (monitor : List BackendDevice) (dev : GstMediaDevice)
    (codec : String) (width height framerate : Int) : Option Bool :=
  (capabilitiesP monitor dev).map fun caps =>
    supports_video_caps dev.device_class caps codec width height framerate

/-- `GstMediaDevice::supports_audio` including the `capabilities()` call;
`none` models the panic when the device is gone. -/
def supports_audioP (monitor : List BackendDevice) (dev : GstMediaDevice)
    (codec : String) (channels framerate : Int) : Option Bool :=
  (capabilitiesP monitor dev).map fun caps =>
    supports_audio_caps dev.device_class caps codec channels framerate

/-! ## Topology builders (`media_device.rs`)

Each builder is modelled as returning
`Option (List String × Except GStreamerError PipelineDesc)`:
`none` models a panic (a missing device hit through an `unwrap`), the
`List String` is the trace of element factory names created during the call
(empty when the builder returns before creating anything), and the `Except`
is the Rust `Result`. -/

/-- `SUPPORTED_VIDEO_CODECS` from `media_device.rs`. -/
def SUPPORTED_VIDEO_CODECS : List String := ["video/x-h264", "image/jpeg"]

/-- `SUPPORTED_AUDIO_CODECS` from `media_device.rs`. -/
def SUPPORTED_AUDIO_CODECS : List String := ["audio/x-raw"]

/-- Description of a constructed GStreamer graph: element factory names in
creation order, static links as index pairs into that list, and, for the
deinterleaved audio pipeline, the `selected_channel` registered with the
`pad-added` callback. -/
structure PipelineDesc where
  elements : List String
  links : List (Nat × Nat)
  padAddedSelect : Option Int
deriving DecidableEq, Repr

/-- `GstMediaDevice::get_video_element`: `device.create_element(..).unwrap()`
on the re-resolved device; `none` models the panic when the device is gone.
The returned element is labelled "source". -/
def get_video_elementP (monitor : List BackendDevice) (dev : GstMediaDevice) :
    Option String :=
  (get_gst_device monitor dev.device_path).map fun _ => "source"

/-- `GstMediaDevice::get_audio_element`: identical to `get_video_elementP`. -/
def get_audio_elementP (monitor : List BackendDevice) (dev : GstMediaDevice) :
    Option String :=
  (get_gst_device monitor dev.device_path).map fun _ => "source"

/-- The file-recording branch of `add_video_file_branch`: queue → convert →
caps(I420) → x264enc → h264parse → mp4mux → filesink, teed off element
`teeIdx` with the branch starting at index `base`. -/
def videoFileBranch : List String :=
  ["queue", "videoconvert", "capsfilter", "x264enc", "h264parse", "mp4mux",
   "filesink"]

/-- The file-recording branch of `add_audio_file_branch`: queue → convert →
resample → avenc_aac → aacparse → mp4mux → filesink. -/
def audioFileBranch : List String :=
  ["queue", "audioconvert", "audioresample", "avenc_aac", "aacparse", "mp4mux",
   "filesink"]

/-- Chain links `(base, base+1), …, (base+n-2, base+n-1)` for a branch of
`n` elements starting at index `base`. -/
def chainLinks (base n : Nat) : List (Nat × Nat) :=
  (List.range (n - 1)).map fun i => (base + i, base + i + 1)

/-- `GstMediaDevice::video_xraw_pipeline`: source → capsfilter → appsink
(linear chain, no tee, no recording). -/
def video_xraw_pipeline (monitor : List BackendDevice) (dev : GstMediaDevice)
    (_width _height _framerate : Int) (_filename : Option String) :
    Option (List String × Except GStreamerError PipelineDesc) :=
  match get_video_elementP monitor dev with
  | none => none
  | some src =>
    let elems := [src, "capsfilter", "appsink"]
    some (elems, .ok { elements := elems, links := [(0, 1), (1, 2)],
                       padAddedSelect := none })

/-- `GstMediaDevice::video_xh264_pipeline`: source → capsfilter → h264parse →
avdec_h264 → appsink (linear chain). -/
def video_xh264_pipeline (monitor : List BackendDevice) (dev : GstMediaDevice)
    (_width _height _framerate : Int) :
    Option (List String × Except GStreamerError PipelineDesc) :=
  match get_video_elementP monitor dev with
  | none => none
  | some src =>
    let elems := [src, "capsfilter", "h264parse", "avdec_h264", "appsink"]
    some (elems, .ok { elements := elems, links := chainLinks 0 5,
                       padAddedSelect := none })

/-- `GstMediaDevice::image_jpeg_pipeline`: source → capsfilter → jpegdec →
videoconvert → capsfilter(I420) → tee → queue → appsink, plus the
file-recording branch teed off index 5 when a filename is given. -/
def image_jpeg_pipeline (monitor : List BackendDevice) (dev : GstMediaDevice)
    (_width _height _framerate : Int) (filename : Option String) :
    Option (List String × Except GStreamerError PipelineDesc) :=
  match get_video_elementP monitor dev with
  | none => none
  | some src =>
    let base := [src, "capsfilter", "jpegdec", "videoconvert", "capsfilter",
                 "tee", "queue", "appsink"]
    let baseLinks := chainLinks 0 8
    match filename with
    | none =>
      some (base, .ok { elements := base, links := baseLinks,
                        padAddedSelect := none })
    | some _ =>
      let elems := base ++ videoFileBranch
      let links := baseLinks ++ chainLinks 8 7 ++ [(5, 8)]
      some (elems, .ok { elements := elems, links := links,
                         padAddedSelect := none })

/-- `GstMediaDevice::audio_xraw_pipeline`: source → capsfilter → tee →
{queue → appsink}, plus the file-recording branch teed off index 2 when a
filename is given. -/
def audio_xraw_pipeline (monitor : List BackendDevice) (dev : GstMediaDevice)
    (_channels _framerate : Int) (filename : Option String) :
    Option (List String × Except GStreamerError PipelineDesc) :=
  match get_audio_elementP monitor dev with
  | none => none
  | some src =>
    let base := [src, "capsfilter", "tee", "queue", "appsink"]
    let baseLinks := [(0, 1), (1, 2), (3, 4), (2, 3)]
    match filename with
    | none =>
      some (base, .ok { elements := base, links := baseLinks,
                        padAddedSelect := none })
    | some _ =>
      let elems := base ++ audioFileBranch
      let links := baseLinks ++ chainLinks 5 7 ++ [(2, 5)]
      some (elems, .ok { elements := elems, links := links,
                         padAddedSelect := none })

/-- `GstMediaDevice::audio_deinterleaved_pipeline`: source → capsfilter →
deinterleave, a fixed queue linked directly to the broadcast appsink, and a
`pad-added` callback registered with `selected_channel`.  The builder takes
no record path; no tee and no file branch exist in this topology. -/
def audio_deinterleaved_pipeline (monitor : List BackendDevice)
    (dev : GstMediaDevice) (selected_channel _channels _framerate : Int) :
    Option (List String × Except GStreamerError PipelineDesc) :=
  match get_audio_elementP monitor dev with
  | none => none
  | some src =>
    let elems := [src, "capsfilter", "deinterleave", "queue", "appsink"]
    some (elems, .ok { elements := elems, links := [(0, 1), (1, 2), (3, 4)],
                       padAddedSelect := some selected_channel })

/-- `GstMediaDevice::video_pipeline`: validates (device class, codec
allow-list, `supports_video`) before dispatching to a concrete builder; no
element is created on a validation failure. -/
def video_pipeline (monitor : List BackendDevice) (dev : GstMediaDevice)
    (codec : String) (width height framerate : Int) (filename : Option String) :
    Option (List String × Except GStreamerError PipelineDesc) :=
  if dev.device_class == "Audio/Source" then
    some ([], .error (.PipelineError "Device is an audio source"))
  else if !(SUPPORTED_VIDEO_CODECS.contains codec) then
    some ([], .error (.PipelineError ("Unsupported codec " ++ codec)))
  else
    match supports_videoP monitor dev codec width height framerate with
    | none => none
    | some false =>
      some ([], .error
        (.PipelineError "Device does not support requested configuration"))
    | some true =>
      if codec == "video/x-raw" then
        video_xraw_pipeline monitor dev width height framerate none
      else if codec == "video/x-h264" then
        video_xh264_pipeline monitor dev width height framerate
      else if codec == "image/jpeg" then
        image_jpeg_pipeline monitor dev width height framerate filename
      else
        some ([], .error (.PipelineError "Failed to create pipeline"))

/-- `GstMediaDevice::audio_pipeline`: validates (device class, codec
allow-list, `supports_audio`) before building `audio_xraw_pipeline`. -/
def audio_pipeline (monitor : List BackendDevice) (dev : GstMediaDevice)
    (codec : String) (channels framerate : Int) (filename : Option String) :
    Option (List String × Except GStreamerError PipelineDesc) :=
  if dev.device_class == "Video/Source" then
    some ([], .error (.PipelineError "Device is a video source"))
  else if !(SUPPORTED_AUDIO_CODECS.contains codec) then
    some ([], .error (.PipelineError ("Unsupported codec " ++ codec)))
  else
    match supports_audioP monitor dev codec channels framerate with
    | none => none
    | some false =>
      some ([], .error
        (.PipelineError "Device does not support requested configuration"))
    | some true =>
      audio_xraw_pipeline monitor dev channels framerate filename

/-- `GstMediaDevice::deinterleaved_audio_pipeline`: validates (device class,
codec allow-list, `supports_audio`) before building
`audio_deinterleaved_pipeline`. -/
def deinterleaved_audio_pipeline (monitor : List BackendDevice)
    (dev : GstMediaDevice) (codec : String)
    (channels selected_channel framerate : Int) :
    Option (List String × Except GStreamerError PipelineDesc) :=
  if dev.device_class == "Video/Source" then
    some ([], .error (.PipelineError "Device is a video source"))
  else if !(SUPPORTED_AUDIO_CODECS.contains codec) then
    some ([], .error (.PipelineError ("Unsupported codec " ++ codec)))
  else
    match supports_audioP monitor dev codec channels framerate with
    | none => none
    | some false =>
      some ([], .error
        (.PipelineError "Device does not support requested configuration"))
    | some true =>
      audio_deinterleaved_pipeline monitor dev selected_channel channels
        framerate

/-! ## The deinterleave `pad-added` callback (`media_device.rs`, the closure
inside `audio_deinterleaved_pipeline`) -/

/-- The pad name the callback links: `format!("src_\x7b\x7d", selected_channel - 1)`. -/
def deinterleavePadName (selected_channel : Int) : String :=
  "src_" ++ toString (selected_channel - 1)

/-- One `pad-added` callback invocation: given the queue sink pad's linked
state and the new pad's name, returns the new linked state and whether a
link was performed.  A pad with the wrong name is ignored; a matching pad is
linked only when the queue sink pad is not already linked. -/
def pad_added_step (selected_channel : Int) (linked : Bool) (padName : String) :
    Bool × Bool :=
  if padName == deinterleavePadName selected_channel then
    if linked then (linked, false) else (true, true)
  else (linked, false)

/-- Process a sequence of `pad-added` events, returning the final linked
state and the list of pad names for which a link was actually performed. -/
def process_pads (selected_channel : Int) (linked : Bool) :
    List String → Bool × List String
  | [] => (linked, [])
  | p :: ps =>
    let s := pad_added_step selected_channel linked p
    let rest := process_pads selected_channel s.1 ps
    (rest.1, (if s.2 then [p] else []) ++ rest.2)

/-! ## Stream runtime (`media_stream.rs`)

The async runtime is modelled by explicit state passing: a `World` records
the task counter, the set of completed background tasks (a task is recorded
as completed at the moment `stop` finishes awaiting it) and the pipelines
that received an end-of-stream event.  `Option` at the outermost level of
`start` models a panic. -/

/-- `LocalFileSaveOptions` from `media_stream.rs`. -/
structure LocalFileSaveOptions where
  output_dir : String
deriving DecidableEq, Repr

/-- `VideoPublishOptions` from `media_stream.rs`. -/
structure VideoPublishOptions where
  codec : String
  device_id : String
  width : Int
  height : Int
  framerate : Int
  local_file_save_options : Option LocalFileSaveOptions
deriving DecidableEq, Repr

/-- `AudioPublishOptions` from `media_stream.rs`. -/
structure AudioPublishOptions where
  codec : String
  device_id : String
  framerate : Int
  channels : Int
  selected_channel : Option Int
  local_file_save_options : Option LocalFileSaveOptions
deriving DecidableEq, Repr

/-- `PublishOptions` from `media_stream.rs`. -/
inductive PublishOptions where
  | Video (v : VideoPublishOptions)
  | Audio (a : AudioPublishOptions)
deriving DecidableEq, Repr

/-- The `device_id` of the options, as read by `start`. -/
def PublishOptions.deviceId : PublishOptions → String
  | .Video v => v.device_id
  | .Audio a => a.device_id

/-- `StreamHandle` from `media_stream.rs`: the background task is identified
by a task id, the pipeline by its description; `taskErr` records whether the
background task will eventually return an error (ignored by `stop`). -/
structure StreamHandle where
  task : Nat
  pipeline : PipelineDesc
  taskErr : Bool
deriving DecidableEq, Repr

/-- `GstMediaStream` from `media_stream.rs`. -/
structure GstMediaStream where
  handle : Option StreamHandle
  publish_options : PublishOptions
deriving DecidableEq, Repr

/-- The ambient async/OS world: next fresh task id, tasks whose completion
has been awaited, and tasks whose pipeline received an Eos event. -/
structure World where
  nextTask : Nat
  completed : List Nat
  eosSent : List Nat
deriving DecidableEq, Repr

/-- The external environment of one `start` call: the device monitor
contents, whether `create_dir_all` succeeds, and whether the spawned
background task will eventually error. -/
structure Env where
  monitor : List BackendDevice
  mkdirOk : Bool
  taskErr : Bool
deriving Repr

/-- `GstMediaStream::new`. -/
def GstMediaStream.new (opts : PublishOptions) : GstMediaStream :=
  { handle := none, publish_options := opts }

/-- `GstMediaStream::has_started`. -/
def has_started (s : GstMediaStream) : Bool :=
  s.handle.isSome

/-- `GstMediaStream::subscribe`: a receiver pair bound to the current
handle's broadcast senders (identified by the handle's task id), or `none`
when not started. -/
def subscribe (s : GstMediaStream) : Option (Nat × Nat) :=
  s.handle.map fun h => (h.task, h.task)

/-- `GstMediaStream::stop`: when a handle exists, send Eos into its pipeline
and await the background task (recorded in the world), then clear the
handle; always returns `Ok(())`. -/
def stop (w : World) (s : GstMediaStream) :
    World × GstMediaStream × Except GStreamerError Unit :=
  match s.handle with
  | some h =>
    ({ w with completed := h.task :: w.completed,
              eosSent := h.task :: w.eosSent },
     { s with handle := none }, .ok ())
  | none => (w, { s with handle := none }, .ok ())

/-- `create_dir` from `media_stream.rs`: `fs::create_dir_all`, which fails
according to the environment. -/
def create_dir (env : Env) (_options : LocalFileSaveOptions) :
    Except GStreamerError Unit :=
  if env.mkdirOk then .ok ()
  else .error (.PipelineError "Failed to create directory")

/-- The per-kind body of `start` after device resolution: directory
creation and filename computation when save options are present, then the
pipeline builder dispatch.  For audio with a selected channel the computed
filename is discarded — `deinterleaved_audio_pipeline` takes no record
path. -/
def buildForOptions (env : Env) (device : GstMediaDevice)
    (opts : PublishOptions) : Option (Except GStreamerError PipelineDesc) :=
  match opts with
  | .Video v =>
    match v.local_file_save_options with
    | some o =>
      match create_dir env o with
      | .error e => some (.error e)
      | .ok () =>
        (video_pipeline env.monitor device v.codec v.width v.height
          v.framerate (some o.output_dir)).map Prod.snd
    | none =>
      (video_pipeline env.monitor device v.codec v.width v.height
        v.framerate none).map Prod.snd
  | .Audio a =>
    match a.local_file_save_options with
    | some o =>
      match create_dir env o with
      | .error e => some (.error e)
      | .ok () =>
        match a.selected_channel with
        | some sel =>
          (deinterleaved_audio_pipeline env.monitor device a.codec a.channels
            sel a.framerate).map Prod.snd
        | none =>
          (audio_pipeline env.monitor device a.codec a.channels a.framerate
            (some o.output_dir)).map Prod.snd
    | none =>
      match a.selected_channel with
      | some sel =>
        (deinterleaved_audio_pipeline env.monitor device a.codec a.channels
          sel a.framerate).map Prod.snd
      | none =>
        (audio_pipeline env.monitor device a.codec a.channels a.framerate
          none).map Prod.snd

/-- `GstMediaStream::start`: implicit `stop`, device resolution, directory
creation + pipeline construction, then spawn of the background task and
installation of the new handle.  Every error path returns with the handle
already cleared by the implicit stop; `none` models a panic inside pipeline
construction. -/
def start (env : Env) (w : World) (s : GstMediaStream) :
    Option (World × GstMediaStream × Except GStreamerError Unit) :=
  let r := stop w s
  let w₁ := r.1
  let s₁ := r.2.1
  match from_device_path env.monitor s.publish_options.deviceId with
  | .error e => some (w₁, s₁, .error e)
  | .ok device =>
    match buildForOptions env device s.publish_options with
    | none => none
    | some (.error e) => some (w₁, s₁, .error e)
    | some (.ok desc) =>
      some ({ w₁ with nextTask := w₁.nextTask + 1 },
            { s₁ with handle := some { task := w₁.nextTask, pipeline := desc,
                                       taskErr := env.taskErr } },
            .ok ())

/-- Number of live handles of a stream (`handle` is an `Option`). -/
def liveHandles (s : GstMediaStream) : Nat :=
  match s.handle with
  | some _ => 1
  | none => 0

/-! ## Publishing manager (`lk_participant.rs`) -/

/-- `LKParticipantError` from `lk_participant.rs`, restricted to the
variants `unpublish_track` can produce. -/
inductive LKParticipantError where
  | LivekitError (msg : String)
deriving DecidableEq, Repr

/-- `TrackHandle` from `lk_participant.rs`: the published track (identified
by its livekit sid) and the forwarding task. -/
structure TrackHandle where
  trackSid : String
  task : Nat
deriving DecidableEq, Repr

/-- `LKParticipant`'s mutable state: the `published_tracks` map, modelled as
an association list keyed by the randomly generated track identifier. -/
structure LKParticipant where
  published_tracks : List (String × TrackHandle)
deriving DecidableEq, Repr

/-- The media-bus side of the world: tracks unpublished from the room,
forwarding tasks aborted, and whether the room's `unpublish_track` call
fails. -/
structure BusWorld where
  unpublished : List String
  aborted : List Nat
  busFails : Bool
deriving DecidableEq, Repr

/-- `LKParticipant::unpublish_track`: looks the id up with `get` (the entry
is never removed from the map); when present, asks the room to unpublish
the underlying track (propagating a room error, in which case the task is
not aborted) and then aborts the forwarding task.  An unknown id returns
`Ok(())` with no side effects. -/
def unpublish_track (w : BusWorld) (p : LKParticipant) (track_sid : String) :
    BusWorld × LKParticipant × Except LKParticipantError Unit :=
  match p.published_tracks.lookup track_sid with
  | some h =>
    if w.busFails then
      (w, p, .error (.LivekitError "unpublish failed"))
    else
      ({ w with unpublished := h.trackSid :: w.unpublished,
                aborted := h.task :: w.aborted },
       p, .ok ())
  | none => (w, p, .ok ())

/-! ## Concrete sample values (used by witnesses and counterexamples) -/

/-- A one-channel microphone as listed by the device monitor. -/
def micBackend : BackendDevice :=
  { props := some { objectPath := none, devicePath := some (some "alsa:hw:2") },
    deviceClass := "Audio/Source", displayName := "Mic",
    caps := [{ name := "audio/x-raw", width := 0, height := 0,
               framerates := [], channels := 1, rate := some (8000, 96000) }] }

/-- An eight-channel audio interface as listed by the device monitor. -/
def umcBackend : BackendDevice :=
  { props := some { objectPath := none, devicePath := some (some "alsa:hw:3") },
    deviceClass := "Audio/Source", displayName := "UMC1820",
    caps := [{ name := "audio/x-raw", width := 0, height := 0,
               framerates := [], channels := 8, rate := some (8000, 96000) }] }

/-- A resolved audio device record. -/
def audDev : GstMediaDevice :=
  { display_name := "Mic", device_class := "Audio/Source",
    device_path := "hw:2" }

/-- A resolved video device record. -/
def vidDev : GstMediaDevice :=
  { display_name := "Cam", device_class := "Video/Source",
    device_path := "/dev/video0" }

/-- The resolved eight-channel interface. -/
def umcDev : GstMediaDevice :=
  { display_name := "UMC1820", device_class := "Audio/Source",
    device_path := "hw:3" }

/-- Publish options for a plain one-channel audio capture of `micBackend`. -/
def opts0 : PublishOptions :=
  .Audio { codec := "audio/x-raw", device_id := "hw:2", framerate := 48000,
           channels := 1, selected_channel := none,
           local_file_save_options := none }

/-- An environment whose monitor lists only `micBackend`. -/
def env0 : Env := { monitor := [micBackend], mkdirOk := true, taskErr := false }

/-- An environment with an empty device monitor. -/
def envBad : Env := { monitor := [], mkdirOk := true, taskErr := false }

/-- The initial world. -/
def w0 : World := { nextTask := 0, completed := [], eosSent := [] }

/-- A freshly constructed stream over `opts0`. -/
def s0 : GstMediaStream := GstMediaStream.new opts0

/-- The audio topology built for `opts0` (no recording branch). -/
def descAudio : PipelineDesc :=
  { elements := ["source", "capsfilter", "tee", "queue", "appsink"],
    links := [(0, 1), (1, 2), (3, 4), (2, 3)], padAddedSelect := none }

/-- World after the first successful `start` on `s0`. -/
def w1c : World := { nextTask := 1, completed := [], eosSent := [] }

/-- Stream after the first successful `start` on `s0`. -/
def s1c : GstMediaStream :=
  { handle := some { task := 0, pipeline := descAudio, taskErr := false },
    publish_options := opts0 }

/-- World after stopping the running stream `s1c`. -/
def w1s : World := { nextTask := 1, completed := [0], eosSent := [0] }

/-- World after the second successful `start`. -/
def w2c : World := { nextTask := 2, completed := [0], eosSent := [0] }

/-- Stream after the second successful `start`. -/
def s2c : GstMediaStream :=
  { handle := some { task := 1, pipeline := descAudio, taskErr := false },
    publish_options := opts0 }

/-- The deinterleaved topology for `selected_channel = 3`. -/
def descDeint : PipelineDesc :=
  { elements := ["source", "capsfilter", "deinterleave", "queue", "appsink"],
    links := [(0, 1), (1, 2), (3, 4)], padAddedSelect := some 3 }

/-- A published track handle. -/
def th0 : TrackHandle := { trackSid := "TR_sid", task := 7 }

/-- A participant with one published track. -/
def p0 : LKParticipant := { published_tracks := [("audio-track-abc", th0)] }

/-- A media-bus world where room unpublish succeeds. -/
def bw0 : BusWorld := { unpublished := [], aborted := [], busFails := false }

/-! ## Theorems -/

/-- Membership in the video-capability projection. -/
lemma mem_videoCaps {v : VideoCapability} {caps : List MediaCapability} :
    v ∈ videoCaps caps ↔ MediaCapability.Video v ∈ caps := by
  unfold videoCaps
  rw [List.mem_filterMap]
  constructor
  · rintro ⟨c, hc, hcv⟩
    cases c with
    | Video v' => simp only [Option.some.injEq] at hcv; subst hcv; exact hc
    | Audio a => simp at hcv
  · intro hv
    exact ⟨.Video v, hv, rfl⟩

/-- Membership in the audio-capability projection. -/
lemma mem_audioCaps {a : AudioCapability} {caps : List MediaCapability} :
    a ∈ audioCaps caps ↔ MediaCapability.Audio a ∈ caps := by
  unfold audioCaps
  rw [List.mem_filterMap]
  constructor
  · rintro ⟨c, hc, hca⟩
    cases c with
    | Video v => simp at hca
    | Audio a' => simp only [Option.some.injEq] at hca; subst hca; exact hc
  · intro ha
    exact ⟨.Audio a, ha, rfl⟩

/-- C4: on a video-class device, `supports_video` is true iff the capability
list contains a Video entry whose codec, width and height equal the query
and whose framerate set contains the queried framerate; and, for a list
whose only Video entry is exactly the queried quadruple, changing any one of
the four query fields flips the result to false. -/
theorem supports_video_exact_match :
    (∀ (caps : List MediaCapability) (codec : String)
        (width height framerate : Int),
      supports_video_caps "Video/Source" caps codec width height framerate
          = true ↔
        ∃ v : VideoCapability, MediaCapability.Video v ∈ caps ∧
          v.codec = codec ∧ v.width = width ∧ v.height = height ∧
          framerate ∈ v.framerates) ∧
    (∀ (caps : List MediaCapability) (c : String) (w h f : Int)
        (c' : String) (w' h' f' : Int),
      videoCaps caps
          = [{ width := w, height := h, framerates := [f], codec := c }] →
      (c' ≠ c ∨ w' ≠ w ∨ h' ≠ h ∨ f' ≠ f) →
      supports_video_caps "Video/Source" caps c' w' h' f' = false) := by
  constructor
  · intro caps codec width height framerate
    unfold supports_video_caps
    rw [if_neg (by decide)]
    rw [List.any_eq_true]
    constructor
    · rintro ⟨v, hv, hpred⟩
      simp only [Bool.and_eq_true, beq_iff_eq, List.elem_iff] at hpred
      exact ⟨v, mem_videoCaps.mp hv, hpred.1.1.1, hpred.1.1.2, hpred.1.2,
             hpred.2⟩
    · rintro ⟨v, hv, hc, hw, hh, hf⟩
      refine ⟨v, mem_videoCaps.mpr hv, ?_⟩
      simp only [Bool.and_eq_true, beq_iff_eq, List.elem_iff]
      exact ⟨⟨⟨hc, hw⟩, hh⟩, hf⟩
  · intro caps c w h f c' w' h' f' hcaps hne
    unfold supports_video_caps
    rw [if_neg (by decide), hcaps]
    simp only [List.any_cons, List.any_nil, Bool.or_false]
    rcases hne with h1 | h1 | h1 | h1 <;>
      simp [List.elem_iff, h1, Ne.symm h1]

/-- Concrete application of `supports_video_exact_match`: a one-entry
1920×1080@30 JPEG capability list answers the exact query with true, and a
changed width with false. -/
theorem supports_video_exact_match_witness :
    supports_video_caps "Video/Source"
        [.Video { width := 1920, height := 1080, framerates := [30],
                  codec := "image/jpeg" }]
        "image/jpeg" 1920 1080 30 = true ∧
    supports_video_caps "Video/Source"
        [.Video { width := 1920, height := 1080, framerates := [30],
                  codec := "image/jpeg" }]
        "image/jpeg" 1280 1080 30 = false := by
  constructor
  · exact (supports_video_exact_match.1 _ "image/jpeg" 1920 1080 30).mpr
      ⟨{ width := 1920, height := 1080, framerates := [30],
         codec := "image/jpeg" }, by decide, rfl, rfl, rfl, by decide⟩
  · exact supports_video_exact_match.2 _ "image/jpeg" 1920 1080 30
      "image/jpeg" 1280 1080 30 (by decide) (Or.inr (Or.inl (by decide)))

/-- C5: on an audio-class device, `supports_audio` is true iff some Audio
entry has equal codec and channel count with the queried framerate inside
its inclusive rate range; `supports_audio` on a "Video/Source" device and
`supports_video` on an "Audio/Source" device are false regardless of the
capability contents. -/
theorem supports_audio_match_and_class_guard :
    (∀ (caps : List MediaCapability) (codec : String) (channels framerate : Int),
      supports_audio_caps "Audio/Source" caps codec channels framerate
          = true ↔
        ∃ a : AudioCapability, MediaCapability.Audio a ∈ caps ∧
          a.codec = codec ∧ a.channels = channels ∧
          a.framerates.1 ≤ framerate ∧ framerate ≤ a.framerates.2) ∧
    (∀ (caps : List MediaCapability) (codec : String) (channels framerate : Int),
      supports_audio_caps "Video/Source" caps codec channels framerate
          = false) ∧
    (∀ (caps : List MediaCapability) (codec : String)
        (width height framerate : Int),
      supports_video_caps "Audio/Source" caps codec width height framerate
          = false) := by
  refine ⟨?_, ?_, ?_⟩
  · intro caps codec channels framerate
    unfold supports_audio_caps
    rw [if_neg (by decide)]
    rw [List.any_eq_true]
    constructor
    · rintro ⟨a, ha, hpred⟩
      simp only [Bool.and_eq_true, beq_iff_eq, decide_eq_true_eq] at hpred
      exact ⟨a, mem_audioCaps.mp ha, hpred.1.1.1, hpred.1.1.2, hpred.1.2,
             hpred.2⟩
    · rintro ⟨a, ha, hc, hch, hlo, hhi⟩
      refine ⟨a, mem_audioCaps.mpr ha, ?_⟩
      simp only [Bool.and_eq_true, beq_iff_eq, decide_eq_true_eq]
      exact ⟨⟨⟨hc, hch⟩, hlo⟩, hhi⟩
  · intro caps codec channels framerate
    unfold supports_audio_caps
    rw [if_pos (by decide)]
  · intro caps codec width height framerate
    unfold supports_video_caps
    rw [if_pos (by decide)]

/-- A `pad-added` event arriving when the queue sink pad is already linked
performs no link, whatever the pad name. -/
lemma pad_added_step_linked (sel : Int) (p : String) :
    pad_added_step sel true p = (true, false) := by
  unfold pad_added_step
  split <;> rfl

/-- Once the queue sink pad is linked, no further `pad-added` event performs
a link. -/
lemma process_pads_linked (sel : Int) (events : List String) :
    process_pads sel true events = (true, []) := by
  induction events with
  | nil => rfl
  | cons p ps ih => simp [process_pads, pad_added_step_linked, ih]

/-- C7: across every sequence of `pad-added` events starting from an
unlinked queue sink pad, the list of performed links is either empty or the
single pad named `src_(selected_channel - 1)` — only that pad is ever linked
and the link happens at most once; moreover an event arriving when the pad
is already linked never links again. -/
theorem deinterleave_pad_link_once (sel : Int) (events : List String)
    (p : String) :
    ((process_pads sel false events).2 = [] ∨
     (process_pads sel false events).2 = [deinterleavePadName sel]) ∧
    pad_added_step sel true p = (true, false) := by
  refine ⟨?_, pad_added_step_linked sel p⟩
  induction events with
  | nil => exact Or.inl rfl
  | cons q qs ih =>
    by_cases hq : q = deinterleavePadName sel
    · right
      simp [process_pads, pad_added_step, hq, process_pads_linked]
    · have hstep : pad_added_step sel false q = (false, false) := by
        simp [pad_added_step, hq]
      simpa [process_pads, hstep] using ih

/-- C3: each of the three pipeline builders rejects a wrong-class device, a
codec outside the kind's allow-list, or a configuration the device does not
support, returning an error with an empty element-creation trace — no graph
element is created on a validation failure. -/
theorem builders_validate_before_building :
    (∀ (monitor : List BackendDevice) (dev : GstMediaDevice) (codec : String)
        (width height framerate : Int) (filename : Option String),
      (dev.device_class = "Audio/Source" ∨
       SUPPORTED_VIDEO_CODECS.contains codec = false ∨
       supports_videoP monitor dev codec width height framerate = some false) →
      ∃ e, video_pipeline monitor dev codec width height framerate filename
          = some ([], .error e)) ∧
    (∀ (monitor : List BackendDevice) (dev : GstMediaDevice) (codec : String)
        (channels framerate : Int) (filename : Option String),
      (dev.device_class = "Video/Source" ∨
       SUPPORTED_AUDIO_CODECS.contains codec = false ∨
       supports_audioP monitor dev codec channels framerate = some false) →
      ∃ e, audio_pipeline monitor dev codec channels framerate filename
          = some ([], .error e)) ∧
    (∀ (monitor : List BackendDevice) (dev : GstMediaDevice) (codec : String)
        (channels selected_channel framerate : Int),
      (dev.device_class = "Video/Source" ∨
       SUPPORTED_AUDIO_CODECS.contains codec = false ∨
       supports_audioP monitor dev codec channels framerate = some false) →
      ∃ e, deinterleaved_audio_pipeline monitor dev codec channels
          selected_channel framerate = some ([], .error e)) := by
  refine ⟨?_, ?_, ?_⟩
  · intro monitor dev codec width height framerate filename hval
    by_cases hclass : dev.device_class = "Audio/Source"
    · exact ⟨.PipelineError "Device is an audio source",
        by simp [video_pipeline, hclass]⟩
    · cases hcodec : SUPPORTED_VIDEO_CODECS.contains codec with
      | false =>
        have hmem : codec ∉ SUPPORTED_VIDEO_CODECS := by simp_all
        exact ⟨.PipelineError ("Unsupported codec " ++ codec),
          by simp [video_pipeline, hclass, hmem]⟩
      | true =>
        have hmem : codec ∈ SUPPORTED_VIDEO_CODECS := by simp_all
        rcases hval with h | h | h
        · exact absurd h hclass
        · rw [hcodec] at h; exact absurd h (by simp)
        · exact ⟨.PipelineError "Device does not support requested configuration",
            by simp [video_pipeline, hclass, hmem, h]⟩
  · intro monitor dev codec channels framerate filename hval
    by_cases hclass : dev.device_class = "Video/Source"
    · exact ⟨.PipelineError "Device is a video source",
        by simp [audio_pipeline, hclass]⟩
    · cases hcodec : SUPPORTED_AUDIO_CODECS.contains codec with
      | false =>
        have hmem : codec ∉ SUPPORTED_AUDIO_CODECS := by simp_all
        exact ⟨.PipelineError ("Unsupported codec " ++ codec),
          by simp [audio_pipeline, hclass, hmem]⟩
      | true =>
        have hmem : codec ∈ SUPPORTED_AUDIO_CODECS := by simp_all
        rcases hval with h | h | h
        · exact absurd h hclass
        · rw [hcodec] at h; exact absurd h (by simp)
        · exact ⟨.PipelineError "Device does not support requested configuration",
            by simp [audio_pipeline, hclass, hmem, h]⟩
  · intro monitor dev codec channels selected_channel framerate hval
    by_cases hclass : dev.device_class = "Video/Source"
    · exact ⟨.PipelineError "Device is a video source",
        by simp [deinterleaved_audio_pipeline, hclass]⟩
    · cases hcodec : SUPPORTED_AUDIO_CODECS.contains codec with
      | false =>
        have hmem : codec ∉ SUPPORTED_AUDIO_CODECS := by simp_all
        exact ⟨.PipelineError ("Unsupported codec " ++ codec),
          by simp [deinterleaved_audio_pipeline, hclass, hmem]⟩
      | true =>
        have hmem : codec ∈ SUPPORTED_AUDIO_CODECS := by simp_all
        rcases hval with h | h | h
        · exact absurd h hclass
        · rw [hcodec] at h; exact absurd h (by simp)
        · exact ⟨.PipelineError "Device does not support requested configuration",
            by simp [deinterleaved_audio_pipeline, hclass, hmem, h]⟩

/-- Concrete application of `builders_validate_before_building`: an
audio-class device rejected for video, a video-class device rejected for
audio, and a video-class device rejected for deinterleaved audio — all with
empty element traces. -/
theorem builders_validate_before_building_witness :
    (∃ e, video_pipeline [] audDev "image/jpeg" 1920 1080 30 none
        = some ([], .error e)) ∧
    (∃ e, audio_pipeline [] vidDev "audio/x-raw" 2 48000 none
        = some ([], .error e)) ∧
    (∃ e, deinterleaved_audio_pipeline [] vidDev "audio/x-raw" 8 3 48000
        = some ([], .error e)) :=
  ⟨builders_validate_before_building.1 [] audDev "image/jpeg" 1920 1080 30
      none (Or.inl rfl),
   builders_validate_before_building.2.1 [] vidDev "audio/x-raw" 2 48000
      none (Or.inl rfl),
   builders_validate_before_building.2.2 [] vidDev "audio/x-raw" 8 3 48000
      (Or.inl rfl)⟩

/-- Concrete application of `supports_audio_match_and_class_guard`: the
microphone capability entry answers its exact query with true, and the same
capability list on a "Video/Source" device answers false. -/
theorem supports_audio_match_and_class_guard_witness :
    supports_audio_caps "Audio/Source"
        [.Audio { channels := 1, framerates := (8000, 96000),
                  codec := "audio/x-raw" }]
        "audio/x-raw" 1 48000 = true ∧
    supports_audio_caps "Video/Source"
        [.Audio { channels := 1, framerates := (8000, 96000),
                  codec := "audio/x-raw" }]
        "audio/x-raw" 1 48000 = false :=
  ⟨(supports_audio_match_and_class_guard.1 _ "audio/x-raw" 1 48000).mpr
      ⟨{ channels := 1, framerates := (8000, 96000), codec := "audio/x-raw" },
       by decide, rfl, rfl, by decide, by decide⟩,
   supports_audio_match_and_class_guard.2.1 _ "audio/x-raw" 1 48000⟩

/-- C6 counterexample: for a valid deinterleaved request (selected channel 3
on the eight-channel interface), the constructed topology has no tee and no
file-recording branch downstream of the fixed queue — the queue links
directly to the broadcast appsink (link `(3, 4)`), refuting the claimed
`tee → (queue → sink) + recording` shape. -/
theorem deinterleaved_no_tee_counterexample :
    deinterleaved_audio_pipeline [umcBackend] umcDev "audio/x-raw" 8 3 48000
        = some (["source", "capsfilter", "deinterleave", "queue", "appsink"],
                .ok descDeint) ∧
    "tee" ∉ descDeint.elements ∧
    "avenc_aac" ∉ descDeint.elements ∧
    "filesink" ∉ descDeint.elements ∧
    (3, 4) ∈ descDeint.links := by
  refine ⟨rfl, by decide, by decide, by decide, by decide⟩

/-- C6 (amended): every successfully built deinterleaved audio pipeline
consists of source → capsfilter → deinterleave with a fixed queue linked
directly to the broadcast appsink, the `pad-added` callback registered with
the selected channel, and no tee or file-recording branch — the builder
accepts no record path. -/
theorem deinterleaved_queue_feeds_appsink :
    ∀ (monitor : List BackendDevice) (dev : GstMediaDevice) (codec : String)
      (channels selected_channel framerate : Int) (trace : List String)
      (desc : PipelineDesc),
      deinterleaved_audio_pipeline monitor dev codec channels selected_channel
          framerate = some (trace, .ok desc) →
      desc.elements
          = ["source", "capsfilter", "deinterleave", "queue", "appsink"] ∧
      desc.links = [(0, 1), (1, 2), (3, 4)] ∧
      desc.padAddedSelect = some selected_channel ∧
      "tee" ∉ desc.elements ∧ "filesink" ∉ desc.elements := by
  intro monitor dev codec channels selected_channel framerate trace desc h
  unfold deinterleaved_audio_pipeline at h
  by_cases hclass : dev.device_class = "Video/Source"
  · simp [hclass] at h
  · rw [if_neg (by simpa using hclass)] at h
    by_cases hcodec : codec ∈ SUPPORTED_AUDIO_CODECS
    · rw [if_neg (by simpa using hcodec)] at h
      cases hsup : supports_audioP monitor dev codec channels framerate with
      | none => rw [hsup] at h; exact absurd h (by simp)
      | some b =>
        rw [hsup] at h
        cases b with
        | false => simp at h
        | true =>
          unfold audio_deinterleaved_pipeline at h
          cases hget : get_audio_elementP monitor dev with
          | none => rw [hget] at h; exact absurd h (by simp)
          | some src =>
            have hsrc : src = "source" := by
              unfold get_audio_elementP at hget
              cases hdev : get_gst_device monitor dev.device_path with
              | none => rw [hdev] at hget; simp at hget
              | some d =>
                rw [hdev] at hget
                simpa using hget.symm
            rw [hget] at h
            simp only [Option.some.injEq, Prod.mk.injEq] at h
            rcases h with ⟨-, hdesc⟩
            cases hdesc₂ : (Except.ok desc : Except GStreamerError PipelineDesc)
            · simp at hdesc₂
            · have : desc = { elements := [src, "capsfilter", "deinterleave",
                                           "queue", "appsink"],
                              links := [(0, 1), (1, 2), (3, 4)],
                              padAddedSelect := some selected_channel } := by
                cases hdesc; rfl
              subst this hsrc
              refine ⟨rfl, rfl, rfl, by simp, by simp⟩
    · rw [if_pos (by simpa using hcodec)] at h
      simp at h

/-- Concrete application of `deinterleaved_queue_feeds_appsink` at the
eight-channel device with selected channel 3. -/
theorem deinterleaved_queue_feeds_appsink_witness :
    descDeint.elements
        = ["source", "capsfilter", "deinterleave", "queue", "appsink"] ∧
    descDeint.links = [(0, 1), (1, 2), (3, 4)] ∧
    descDeint.padAddedSelect = some 3 ∧
    "tee" ∉ descDeint.elements ∧ "filesink" ∉ descDeint.elements :=
  deinterleaved_queue_feeds_appsink [umcBackend] umcDev "audio/x-raw" 8 3
    48000 ["source", "capsfilter", "deinterleave", "queue", "appsink"]
    descDeint rfl

/-- C10: when the stream's device path no longer resolves in the device
monitor, `capabilities()` and the element getters panic (`none` models the
`unwrap` panic), and so do `supports_video`/`supports_audio`, which call
`capabilities()`; by contrast `from_device_path` returns a `DeviceError`. -/
theorem capabilities_panic_when_device_missing :
    ∀ (monitor : List BackendDevice) (dev : GstMediaDevice),
      get_gst_device monitor dev.device_path = none →
      capabilitiesP monitor dev = none ∧
      get_video_elementP monitor dev = none ∧
      get_audio_elementP monitor dev = none ∧
      (∀ (codec : String) (width height framerate : Int),
        supports_videoP monitor dev codec width height framerate = none) ∧
      (∀ (codec : String) (channels framerate : Int),
        supports_audioP monitor dev codec channels framerate = none) ∧
      from_device_path monitor dev.device_path
          = .error (.DeviceError "No device found") := by
  intro monitor dev h
  refine ⟨?_, ?_, ?_, ?_, ?_, ?_⟩
  · simp [capabilitiesP, h]
  · simp [get_video_elementP, h]
  · simp [get_audio_elementP, h]
  · intro codec width height framerate
    simp [supports_videoP, capabilitiesP, h]
  · intro codec channels framerate
    simp [supports_audioP, capabilitiesP, h]
  · simp [from_device_path, h]

/-- Concrete application of `capabilities_panic_when_device_missing` with an
empty device monitor. -/
theorem capabilities_panic_when_device_missing_witness :
    capabilitiesP [] audDev = none ∧
    supports_audioP [] audDev "audio/x-raw" 1 48000 = none :=
  ⟨(capabilities_panic_when_device_missing [] audDev rfl).1,
   (capabilities_panic_when_device_missing [] audDev rfl).2.2.2.2.1
     "audio/x-raw" 1 48000⟩

/-- After `stop`, the stream holds no handle. -/
lemma stop_handle_none (w : World) (s : GstMediaStream) :
    (stop w s).2.1.handle = none := by
  cases hs : s.handle <;> simp [stop, hs]

/-- `stop` never changes the task counter. -/
lemma stop_nextTask (w : World) (s : GstMediaStream) :
    (stop w s).1.nextTask = w.nextTask := by
  cases hs : s.handle <;> simp [stop, hs]

/-- `stop` on a stream with a handle records Eos and the awaited completion
of that handle's background task. -/
lemma stop_records_teardown (w : World) (s : GstMediaStream)
    (h : StreamHandle) (hs : s.handle = some h) :
    (stop w s).1.completed = h.task :: w.completed ∧
    (stop w s).1.eosSent = h.task :: w.eosSent := by
  simp [stop, hs]

/-- Every defined (non-panicking) run of `start` either fails with the
post-implicit-stop state unchanged, or installs a fresh handle whose task id
is the stop-time task counter, bumping the counter. -/
lemma start_shape (env : Env) (w : World) (s : GstMediaStream)
    (out : World × GstMediaStream × Except GStreamerError Unit)
    (hout : start env w s = some out) :
    (∃ e, out = ((stop w s).1, (stop w s).2.1, .error e)) ∨
    (∃ desc, out =
      ({ (stop w s).1 with nextTask := (stop w s).1.nextTask + 1 },
       { (stop w s).2.1 with
           handle := some { task := (stop w s).1.nextTask, pipeline := desc,
                            taskErr := env.taskErr } },
       .ok ())) := by
  unfold start at hout
  cases hfd : from_device_path env.monitor s.publish_options.deviceId with
  | error e =>
    simp only [hfd, Option.some.injEq] at hout
    exact Or.inl ⟨e, hout.symm⟩
  | ok device =>
    simp only [hfd] at hout
    cases hb : buildForOptions env device s.publish_options with
    | none => simp only [hb] at hout; exact absurd hout (by simp)
    | some r =>
      cases r with
      | error e =>
        simp only [hb, Option.some.injEq] at hout
        exact Or.inl ⟨e, hout.symm⟩
      | ok desc =>
        simp only [hb, Option.some.injEq] at hout
        exact Or.inr ⟨desc, hout.symm⟩

/-- A defined `start` leaves the world's completed/eos lists exactly as the
implicit stop left them. -/
lemma start_world_teardown (env : Env) (w : World) (s : GstMediaStream)
    (w' : World) (s' : GstMediaStream) (r : Except GStreamerError Unit)
    (hout : start env w s = some (w', s', r)) :
    w'.completed = (stop w s).1.completed ∧
    w'.eosSent = (stop w s).1.eosSent := by
  rcases start_shape env w s _ hout with ⟨e, he⟩ | ⟨desc, hd⟩
  · rcases Prod.mk.injEq .. ▸ he with ⟨hw, -⟩
    subst hw; exact ⟨rfl, rfl⟩
  · rcases Prod.mk.injEq .. ▸ hd with ⟨hw, -⟩
    subst hw; exact ⟨rfl, rfl⟩

/-- C2: `stop` on a never-started (or already stopped) stream is a no-op
success; `stop` on a running stream sends Eos into the pipeline, awaits the
background task, and clears the handle, succeeding regardless of the task's
own result (`taskErr` is arbitrary); `stop` never returns an error, so
repeated calls never fail. -/
theorem stop_idempotent_noop :
    (∀ (w : World) (s : GstMediaStream), s.handle = none →
      stop w s = (w, s, .ok ())) ∧
    (∀ (w : World) (s : GstMediaStream) (h : StreamHandle),
      s.handle = some h →
      stop w s =
        ({ w with
            completed := h.task :: w.completed,
            eosSent := h.task :: w.eosSent },
         { s with handle := none }, .ok ())) ∧
    (∀ (w : World) (s : GstMediaStream), (stop w s).2.2 = .ok ()) ∧
    (∀ (w : World) (s : GstMediaStream),
      (stop (stop w s).1 (stop w s).2.1).2.2 = .ok ()) := by
  have hok : ∀ (w : World) (s : GstMediaStream), (stop w s).2.2 = .ok () := by
    intro w s
    cases hs : s.handle <;> simp [stop, hs]
  refine ⟨?_, ?_, hok, fun w s => hok _ _⟩
  · intro w s hs
    cases s with
    | mk h o => cases hs; rfl
  · intro w s h hs
    simp [stop, hs]

/-- Concrete application of `stop_idempotent_noop`: stopping the
never-started stream `s0` is a no-op success, and stopping the running
stream `s1c` tears down task 0 and succeeds. -/
theorem stop_idempotent_noop_witness :
    stop w0 s0 = (w0, s0, .ok ()) ∧
    stop w1c s1c = (w1s, { s1c with handle := none }, .ok ()) := by
  refine ⟨stop_idempotent_noop.1 w0 s0 rfl, ?_⟩
  have h := stop_idempotent_noop.2.1 w1c s1c
    { task := 0, pipeline := descAudio, taskErr := false } rfl
  exact h.trans (by rfl)

/-- C1: a stream holds at most one live handle; whenever `start` runs on a
stream holding a handle, that handle's pipeline receives Eos and its
background task is awaited to completion (whatever `start` then returns);
and two sequential successful `start` calls leave exactly one live handle,
distinct from the first, with the first pipeline's background task completed
before the second handle is installed. -/
theorem stream_at_most_one_handle :
    (∀ s : GstMediaStream, liveHandles s ≤ 1) ∧
    (∀ (env : Env) (w : World) (s : GstMediaStream) (h : StreamHandle)
        (w' : World) (s' : GstMediaStream) (r : Except GStreamerError Unit),
      s.handle = some h → start env w s = some (w', s', r) →
      h.task ∈ w'.completed ∧ h.task ∈ w'.eosSent) ∧
    (∀ (env₁ env₂ : Env) (w : World) (s : GstMediaStream)
        (w₁ : World) (s₁ : GstMediaStream) (w₂ : World) (s₂ : GstMediaStream)
        (h₁ h₂ : StreamHandle),
      start env₁ w s = some (w₁, s₁, .ok ()) →
      start env₂ w₁ s₁ = some (w₂, s₂, .ok ()) →
      s₁.handle = some h₁ → s₂.handle = some h₂ →
      h₁.task ∈ w₂.completed ∧ h₂.task ≠ h₁.task ∧ liveHandles s₂ = 1) := by
  have hrun : ∀ (env : Env) (w : World) (s : GstMediaStream)
      (h : StreamHandle) (w' : World) (s' : GstMediaStream)
      (r : Except GStreamerError Unit),
      s.handle = some h → start env w s = some (w', s', r) →
      h.task ∈ w'.completed ∧ h.task ∈ w'.eosSent := by
    intro env w s h w' s' r hs hout
    rcases start_world_teardown env w s w' s' r hout with ⟨hc, he⟩
    rcases stop_records_teardown w s h hs with ⟨hc', he'⟩
    rw [hc, hc', he, he']
    exact ⟨List.mem_cons_self _ _, List.mem_cons_self _ _⟩
  have hok : ∀ (env : Env) (w : World) (s : GstMediaStream) (w' : World)
      (s' : GstMediaStream),
      start env w s = some (w', s', .ok ()) →
      ∃ desc, s'.handle = some { task := (stop w s).1.nextTask,
                                 pipeline := desc, taskErr := env.taskErr } ∧
        w'.nextTask = (stop w s).1.nextTask + 1 := by
    intro env w s w' s' hout
    rcases start_shape env w s _ hout with ⟨e, he⟩ | ⟨desc, hd⟩
    · exact absurd (congrArg (fun t => t.2.2) he) (by simp)
    · rcases Prod.mk.injEq .. ▸ hd with ⟨hw, hrest⟩
      rcases Prod.mk.injEq .. ▸ hrest with ⟨hs', -⟩
      subst hw; subst hs'
      exact ⟨desc, rfl, rfl⟩
  refine ⟨?_, hrun, ?_⟩
  · intro s
    cases hs : s.handle <;> simp [liveHandles, hs]
  · intro env₁ env₂ w s w₁ s₁ w₂ s₂ h₁ h₂ hst₁ hst₂ hh₁ hh₂
    rcases hok env₁ w s w₁ s₁ hst₁ with ⟨desc₁, hs₁, hn₁⟩
    rcases hok env₂ w₁ s₁ w₂ s₂ hst₂ with ⟨desc₂, hs₂, -⟩
    have ht₁ : h₁.task = (stop w s).1.nextTask := by
      rw [hh₁] at hs₁
      cases hs₁₂ : Option.some.inj hs₁
      rfl
    have ht₂ : h₂.task = (stop w₁ s₁).1.nextTask := by
      rw [hh₂] at hs₂
      cases hs₂₂ : Option.some.inj hs₂
      rfl
    refine ⟨(hrun env₂ w₁ s₁ h₁ w₂ s₂ (.ok ()) hh₁ hst₂).1, ?_, ?_⟩
    · rw [ht₁, ht₂, stop_nextTask, hn₁]
      exact Nat.succ_ne_self _
    · simp [liveHandles, hs₂]

/-- Concrete application of `stream_at_most_one_handle`: two successful
`start` calls on the microphone stream — task 0 is completed and task 1 is
the single live handle afterwards. -/
theorem stream_at_most_one_handle_witness :
    (0 : Nat) ∈ w2c.completed ∧
    ({ task := 1, pipeline := descAudio, taskErr := false } :
        StreamHandle).task ≠
      ({ task := 0, pipeline := descAudio, taskErr := false } :
        StreamHandle).task ∧
    liveHandles s2c = 1 :=
  stream_at_most_one_handle.2.2 env0 env0 w0 s0 w1c s1c w2c s2c
    { task := 0, pipeline := descAudio, taskErr := false }
    { task := 1, pipeline := descAudio, taskErr := false }
    rfl rfl rfl rfl

/-- C9: whenever `start` returns an error (device resolution, directory
creation or pipeline construction failed), the stream is left holding no
handle: `has_started` is false and `subscribe` returns `none`. -/
theorem start_error_leaves_stopped :
    ∀ (env : Env) (w : World) (s : GstMediaStream) (w' : World)
      (s' : GstMediaStream) (e : GStreamerError),
      start env w s = some (w', s', .error e) →
      s'.handle = none ∧ has_started s' = false ∧ subscribe s' = none ∧
      (∀ h : StreamHandle, s.handle = some h → h.task ∈ w'.completed) := by
  intro env w s w' s' e hout
  have hprior : ∀ h : StreamHandle, s.handle = some h →
      h.task ∈ w'.completed := by
    intro h hs
    rcases start_world_teardown env w s w' s' (.error e) hout with ⟨hc, -⟩
    rw [hc, (stop_records_teardown w s h hs).1]
    exact List.mem_cons_self _ _
  rcases start_shape env w s _ hout with ⟨e', he⟩ | ⟨desc, hd⟩
  · rcases Prod.mk.injEq .. ▸ he with ⟨-, hrest⟩
    rcases Prod.mk.injEq .. ▸ hrest with ⟨hs', -⟩
    subst hs'
    refine ⟨stop_handle_none w s, ?_, ?_, hprior⟩ <;>
      simp [has_started, subscribe, stop_handle_none w s]
  · exact absurd (congrArg (fun t => t.2.2) hd) (by simp)

/-- Concrete application of `start_error_leaves_stopped`: starting against
an empty device monitor fails with a device error and leaves the stream
stopped. -/
theorem start_error_leaves_stopped_witness :
    s0.handle = none ∧ has_started s0 = false ∧ subscribe s0 = none ∧
    (∀ h : StreamHandle, s0.handle = some h → h.task ∈ w0.completed) :=
  start_error_leaves_stopped envBad w0 s0 w0 s0
    (.DeviceError "No device found") rfl

/-- C8 counterexample: unpublishing the present id `"audio-track-abc"`
succeeds, asks the bus to unpublish and aborts the forwarding task, but the
`TrackHandle` entry is still in the mapping afterwards (the code looks the
id up with `get`, never `remove`) — refuting the claimed removal. -/
theorem unpublish_keeps_entry_counterexample :
    (unpublish_track bw0 p0 "audio-track-abc").2.2 = .ok () ∧
    (unpublish_track bw0 p0 "audio-track-abc").1.unpublished = ["TR_sid"] ∧
    (unpublish_track bw0 p0 "audio-track-abc").1.aborted = [7] ∧
    (unpublish_track bw0 p0 "audio-track-abc").2.1 = p0 ∧
    (unpublish_track bw0 p0 "audio-track-abc").2.1.published_tracks.lookup
        "audio-track-abc" = some th0 :=
  ⟨rfl, rfl, rfl, rfl, rfl⟩

/-- C8 (amended): `unpublish_track(id)` with an id present in the mapping
asks the media bus to unpublish the underlying track and, when that
succeeds, cancels the forwarding task — but the `TrackHandle` entry is left
in the mapping (the participant state is unchanged).  Calling it with an id
not in the mapping returns success with no side effects. -/
theorem unpublish_track_spec :
    (∀ (w : BusWorld) (p : LKParticipant) (sid : String) (h : TrackHandle),
      p.published_tracks.lookup sid = some h → w.busFails = false →
      unpublish_track w p sid =
        ({ w with
            unpublished := h.trackSid :: w.unpublished,
            aborted := h.task :: w.aborted },
         p, .ok ())) ∧
    (∀ (w : BusWorld) (p : LKParticipant) (sid : String),
      p.published_tracks.lookup sid = none →
      unpublish_track w p sid = (w, p, .ok ())) := by
  constructor
  · intro w p sid h hl hb
    simp [unpublish_track, hl, hb]
  · intro w p sid hl
    simp [unpublish_track, hl]

/-- Concrete application of `unpublish_track_spec`: unpublishing the present
id and an unknown id on `p0`. -/
theorem unpublish_track_spec_witness :
    unpublish_track bw0 p0 "audio-track-abc" =
      ({ bw0 with unpublished := ["TR_sid"], aborted := [7] }, p0, .ok ()) ∧
    unpublish_track bw0 p0 "missing-id" = (bw0, p0, .ok ()) := by
  constructor
  · have h := unpublish_track_spec.1 bw0 p0 "audio-track-abc" th0 rfl rfl
    exact h.trans (by rfl)
  · exact unpublish_track_spec.2 bw0 p0 "missing-id" rfl

end LKGst
